import Mathlib

/-
  Verification development for the pycalrissian repository
  (files modelled: pycalrissian/execution.py and pycalrissian/job.py).

  The Python source is shallowly embedded: every function below is a direct
  translation of the corresponding Python function; Python exceptions are
  modelled with `Except String`, `None` with `Option`, Python dictionaries
  with association lists, and external cluster state (the kubernetes API
  responses) with explicit environment records.
-/

set_option maxHeartbeats 1000000

namespace Pycalrissian

/- ===================== execution.py : JobStatus ===================== -/

/-- Model of the `JobStatus` enum of execution.py. -/
inductive JobStatus
  | ACTIVE
  | FAILED
  | SUCCEEDED
deriving DecidableEq, Repr, BEq

/-- Model of one entry of `response.status.conditions` (kubernetes
`V1JobCondition`); only the field the code reads is kept.  Times are
modelled as natural numbers. -/
structure V1JobCondition where
  last_transition_time : Nat
deriving DecidableEq, Repr

/-- Model of `response.status` as returned by `read_namespaced_job_status`:
the fields the code reads.  `active`, `succeeded` and `failed` are pod
counts (`None` or a number in the kubernetes client). -/
structure V1JobStatus where
  active : Option Nat
  start_time : Option Nat
  succeeded : Option Nat
  failed : Option Nat
  completion_time : Option Nat
  conditions : Option (List V1JobCondition)
deriving DecidableEq, Repr

/-- Python truthiness of an optional count: `None` and `0` are falsy. -/
def truthyCount : Option Nat → Bool
  | none => false
  | some n => !(n == 0)

/-- Model of `CalrissianExecution.get_status` (execution.py lines 35-53),
given the status object the cluster returned.  The Python function falls
through (returns `None`) when no branch fires. -/
def get_status (s : V1JobStatus) : Option JobStatus :=
  if s.active = none ∧ s.start_time = none then some JobStatus.ACTIVE
  else if truthyCount s.active then some JobStatus.ACTIVE
  else if truthyCount s.succeeded then some JobStatus.SUCCEEDED
  else if truthyCount s.failed then some JobStatus.FAILED
  else none

/-- Model of `CalrissianExecution.get_completion_time` (execution.py lines
129-143): returns `completion_time` when set, otherwise
`conditions[0].last_transition_time` when `conditions` is not `None`
(Python raises `IndexError` on an empty list), otherwise falls through to
`None`. -/
def get_completion_time (s : V1JobStatus) : Except String (Option Nat) :=
  match s.completion_time with
  | some t => Except.ok (some t)
  | none =>
    match s.conditions with
    | some [] => Except.error "IndexError: list index out of range"
    | some (c :: _) => Except.ok (some c.last_transition_time)
    | none => Except.ok none

/-- Modelled from the spec: "the most recent status-condition transition
time" — the maximum of the transition times of the conditions.  This is the
comparison definition for claim C8; the code itself uses `conditions[0]`. -/
def mostRecentTransitionTime (conds : List V1JobCondition) : Option Nat :=
  (conds.map V1JobCondition.last_transition_time).max?

/- ===================== job.py : shorten_namespace ===================== -/

/-- Python `value.endswith("-")` on a string modelled as a character
list. -/
def endsWithDash (l : List Char) : Bool := l.getLast? == some '-'

/-- The inner `while value.endswith("-"): value = value[:-1]` loop of
`CalrissianJob.shorten_namespace` (job.py lines 554-555): it removes the
longest trailing run of `'-'` characters, rendered here as
reverse / dropWhile / reverse. -/
def stripDashes (l : List Char) : List Char :=
  (l.reverse.dropWhile (fun c => c == '-')).reverse

/-- Model of `CalrissianJob.shorten_namespace` (job.py lines 549-556) on a
string modelled as a character list: while the length exceeds 63, drop the
last character, then strip any trailing dashes. -/
def shorten_namespace_list (l : List Char) : List Char :=
  if h : 63 < l.length then shorten_namespace_list (stripDashes l.dropLast) else l
termination_by l.length
decreasing_by
  have h1 : (stripDashes l.dropLast).length ≤ l.dropLast.length := by
    simpa [stripDashes] using
      (List.dropWhile_suffix (l := l.dropLast.reverse) (fun c => c == '-')).length_le
  simp only [List.length_dropLast] at h1 ⊢
  omega

/-- Model of `CalrissianJob.shorten_namespace` on Lean strings. -/
def shorten_namespace (s : String) : String :=
  String.mk (shorten_namespace_list s.data)

/- ===================== job.py : the job model ===================== -/

/-- The kubernetes volume sources the builder uses (`V1ConfigMapVolumeSource`
and `V1PersistentVolumeClaimVolumeSource`), reduced to the fields the code
sets that identify the source. -/
inductive VolumeSource
  | configMap (name : String)
  | persistentVolumeClaim (claimName : String) (readOnly : Option Bool)
deriving DecidableEq, Repr

/-- Model of `client.V1Volume` as constructed by the builder. -/
structure V1Volume where
  name : String
  source : VolumeSource
deriving DecidableEq, Repr

/-- Model of `client.V1VolumeMount` as constructed by the builder. -/
structure V1VolumeMount where
  mount_path : String
  name : String
  read_only : Option Bool
deriving DecidableEq, Repr

/-- One entry of the PVC registry list: a Python dict read with
`.get("pvcName")` and `.get("pvName")` (either key may be missing). -/
structure PvcMap where
  pvcName : Option String
  pvName : Option String
deriving DecidableEq, Repr

/-- The `workspace-config` ConfigMap object: its `.data` dictionary. -/
structure ConfigMapObj where
  data : List (String × String)
deriving DecidableEq, Repr

/-- One entry of `calling_workspace["status"]["aws"]["efs"]["accessPoints"]`. -/
structure AccessPoint where
  name : String
deriving DecidableEq, Repr

/-- One entry of `calling_workspace["spec"]["storage"]["persistentVolumes"]`:
the code reads `pv["volumeSource"]["accessPointName"]` and `pv["name"]`. -/
structure WsPersistentVolume where
  accessPointName : String
  name : String
deriving DecidableEq, Repr

/-- The calling workspace custom resource, reduced to the fields read. -/
structure WorkspaceCRD where
  accessPoints : List AccessPoint
  persistentVolumes : List WsPersistentVolume
deriving DecidableEq, Repr

/-- Cluster-side state consumed by `CalrissianJob.to_k8s_job`:
`workspace_config` is the result of `read_namespaced_config_map`
(`none` models the call raising), `jsonParse` is the `json.loads` oracle
for the registry payload (`none` models `JSONDecodeError`),
`is_pvc_created` is the context's claim-existence check, and
`calling_workspace_crd` is the result of `get_namespaced_custom_object`
(`none` models the call raising). -/
structure ClusterEnv where
  workspace_config : Option ConfigMapObj
  jsonParse : String → Option (List PvcMap)
  is_pvc_created : String → Bool
  calling_workspace_crd : Option WorkspaceCRD

/-- The fields of a `CalrissianJob` instance used by `to_k8s_job` and
`_get_calrissian_args`.  `pod_env_vars` and `pod_node_selector` are Python
dicts (`None` is normalised to `{}` in `__init__`, so the empty list models
both); `calrissian_wdir` is `runtime_context.calrissian_wdir`. -/
structure CalrissianJob where
  job_id : String
  cwl_entry_point : Option String
  pod_env_vars : List (String × String)
  pod_node_selector : List (String × String)
  max_ram : String
  max_cores : String
  service_account : String
  calling_service_account : String
  debug : Bool
  no_read_only : Bool
  tool_logs : Bool
  calling_workspace : String
  executing_workspace : String
  calrissian_wdir : String

/-- `self.volume_calrissian_wdir`, set in `__init__`. -/
def volume_calrissian_wdir : String := "volume-calrissian-wdir"

/-- `self.calrissian_base_path`, set in `__init__`. -/
def calrissian_base_path : String := "/calrissian"

/-- `os.path.join` for the shapes the code uses (posix join of two
components). -/
def pathJoin (a b : String) : String :=
  if List.isPrefixOf "/".data b.data then b
  else if a.data = [] ∨ List.isSuffixOf "/".data a.data then a ++ b
  else a ++ "/" ++ b

/-- Python `dict.get(key)` on an association list. -/
def dictGet (d : List (String × String)) (k : String) : Option String :=
  (d.find? (fun p => p.1 == k)).map (fun p => p.2)

/-- Python `str(x)` of an optional string (`None` prints as "None"),
used for the f-string interpolation of `pv_name` in the mount path. -/
def pyStr : Option String → String
  | some s => s
  | none => "None"

/-- Model of `_get_calrissian_args` (job.py lines 445-508): the sequential
`args.extend`/`args.append` calls, in source order. -/
def get_calrissian_args (j : CalrissianJob) : List String :=
  let args : List String := []
  let args := args ++ ["--stdout", pathJoin calrissian_base_path "output.json"]
  let args := args ++ ["--stderr", pathJoin calrissian_base_path "stderr.log"]
  let args := args ++ ["--usage-report", pathJoin calrissian_base_path "report.json"]
  let args := args ++ ["--max-ram", j.max_ram, "--max-cores", j.max_cores]
  let args := args ++ ["--pod-serviceaccount", j.service_account]
  let args := args ++ ["--tmp-outdir-prefix", calrissian_base_path ++ "/"]
  let args := args ++ ["--outdir", calrissian_base_path ++ "/"]
  let args := if j.pod_node_selector ≠ [] then
      args ++ ["--pod-nodeselectors", pathJoin "/pod-node-selector" "pod_nodeselectors.yml"]
    else args
  let args := if j.pod_env_vars ≠ [] then
      args ++ ["--pod-env-vars", pathJoin "/pod-env-vars" "pod_env_vars.json"]
    else args
  let args := if j.debug then args ++ ["--debug"] else args
  let args := if j.no_read_only then args ++ ["--no-read-only"] else args
  let args := if j.tool_logs then args ++ ["--tool-logs-basepath", calrissian_base_path] else args
  let args := args ++ ["--executing-workspace", j.executing_workspace]
  let args := args ++ ["--calling-workspace", j.calling_workspace]
  let args := args ++ ["--calling-service-account", j.calling_service_account]
  let args := args ++ ["--enable-ext"]
  let args := match j.cwl_entry_point with
    | some ep => args ++ ["/workflow-input/workflow.cwl#" ++ ep, "/workflow-params/params.yml"]
    | none => args ++ ["/workflow-input/workflow.cwl", "/workflow-params/params.yml"]
  args

/-- `workflow_volume` of `to_k8s_job`. -/
def workflow_volume (j : CalrissianJob) : V1Volume :=
  ⟨"volume-cwl-workflow", VolumeSource.configMap ("cwl-workflow-" ++ j.job_id)⟩

/-- `workflow_volume_mount` of `to_k8s_job`. -/
def workflow_volume_mount : V1VolumeMount :=
  ⟨"/workflow-input", "volume-cwl-workflow", none⟩

/-- `params_volume` of `to_k8s_job`. -/
def params_volume (j : CalrissianJob) : V1Volume :=
  ⟨"volume-params", VolumeSource.configMap ("params-" ++ j.job_id)⟩

/-- `params_volume_mount` of `to_k8s_job`. -/
def params_volume_mount : V1VolumeMount :=
  ⟨"/workflow-params", "volume-params", none⟩

/-- `calrissian_wdir_volume` of `to_k8s_job`. -/
def calrissian_wdir_volume (j : CalrissianJob) : V1Volume :=
  ⟨volume_calrissian_wdir, VolumeSource.persistentVolumeClaim j.calrissian_wdir (some false)⟩

/-- `calrissian_wdir_volume_mount` of `to_k8s_job`. -/
def calrissian_wdir_volume_mount : V1VolumeMount :=
  ⟨calrissian_base_path, volume_calrissian_wdir, some false⟩

/-- `pod_env_vars_volume` of `to_k8s_job`. -/
def pod_env_vars_volume (j : CalrissianJob) : V1Volume :=
  ⟨"volume-pod-env-vars", VolumeSource.configMap ("pod-env-vars-" ++ j.job_id)⟩

/-- `pod_env_vars_volume_mount` of `to_k8s_job`. -/
def pod_env_vars_volume_mount : V1VolumeMount :=
  ⟨"/pod-env-vars", "volume-pod-env-vars", none⟩

/-- `pod_node_selector_volume` of `to_k8s_job`. -/
def pod_node_selector_volume (j : CalrissianJob) : V1Volume :=
  ⟨"volume-pod-node-selector", VolumeSource.configMap ("pod-node-selector-" ++ j.job_id)⟩

/-- `pod_node_selector_volume_mount` of `to_k8s_job`. -/
def pod_node_selector_volume_mount : V1VolumeMount :=
  ⟨"/pod-node-selector", "volume-pod-node-selector", none⟩

/-- The `try: read_namespaced_config_map ... except: workspace_config = None`
block followed by `pvcs_json = workspace_config.data.get("pvcs", "[]")` and
the guarded `json.loads` (job.py lines 261-271).  When the read raised, the
subsequent attribute access on `None` raises `AttributeError` (uncaught);
when `json.loads` raises `JSONDecodeError`, it is caught and the list
degrades to `[]`. -/
def read_pvcs_list (env : ClusterEnv) : Except String (List PvcMap) :=
  match env.workspace_config with
  | none => Except.error "AttributeError: NoneType object has no attribute data"
  | some cfg =>
    let pvcs_json := (dictGet cfg.data "pvcs").getD "[]"
    match env.jsonParse pvcs_json with
    | none => Except.ok []
    | some l => Except.ok l

/-- Python truthiness of `pvc_name` (`None` and `""` are falsy) combined
with the `is_pvc_created` check, guarding one registry entry. -/
def pvcEntryTaken (env : ClusterEnv) (m : PvcMap) : Bool :=
  match m.pvcName with
  | none => false
  | some s => !(s == "") && env.is_pvc_created s

/-- The body of the `for pvc_map in pvcs_list` loop (job.py lines 273-294):
when the entry is taken, append the workspace EFS volume/mount pair to both
lists. -/
def workspaceStep (env : ClusterEnv) (acc : List V1Volume × List V1VolumeMount)
    (m : PvcMap) : List V1Volume × List V1VolumeMount :=
  if pvcEntryTaken env m then
    let pvc_name := (m.pvcName).getD ""
    let volume_name := "workspace-efs-" ++ pvc_name
    (acc.1 ++ [⟨volume_name, VolumeSource.persistentVolumeClaim pvc_name none⟩],
     acc.2 ++ [⟨"/workspace/" ++ pyStr m.pvName, volume_name, some false⟩])
  else acc

/-- The `for pvc_map in pvcs_list` loop, iterated in list order. -/
def addWorkspaceVolumes (env : ClusterEnv) :
    List PvcMap → List V1Volume × List V1VolumeMount → List V1Volume × List V1VolumeMount
  | [], acc => acc
  | m :: rest, acc => addWorkspaceVolumes env rest (workspaceStep env acc m)

/-- The `pv_name_map` dictionary built by the update loop over
`persistent_volumes` (later entries overwrite earlier ones), then indexed
with `pv_name_map[access_point["name"]]`. -/
def pvNameMapGet (pvs : List WsPersistentVolume) (k : String) : Option String :=
  (pvs.reverse.find? (fun pv => pv.accessPointName == k)).map (fun pv => pv.name)

/-- Python `s.replace(pat, "", 1)` for a non-empty pattern: remove the first
occurrence of `pat`, scanning left to right. -/
def removeFirstOcc (pat : List Char) : List Char → List Char
  | [] => []
  | c :: cs =>
    if List.isPrefixOf pat (c :: cs) then (c :: cs).drop pat.length
    else c :: removeFirstOcc pat cs

/-- `pvc_mount_path.replace("pv-", "", 1)` on Lean strings. -/
def replacePvDash (s : String) : String :=
  String.mk (removeFirstOcc "pv-".data s.data)

/-- The body of the `for access_point in efs_access_points` loop (job.py
lines 328-352), given the looked-up `pvc_mount_path`. -/
def crossVolumePair (pvc_mount_path : String) : V1Volume × V1VolumeMount :=
  let basic_pv_name := replacePvDash pvc_mount_path
  let pv_name := "temp-pv-" ++ basic_pv_name
  let pvc_name := "temp-pvc-workspace-" ++ basic_pv_name
  (⟨pv_name, VolumeSource.persistentVolumeClaim pvc_name none⟩,
   ⟨"/workspace/" ++ pvc_mount_path, pv_name, none⟩)

/-- The `for access_point in efs_access_points` loop: a missing key in
`pv_name_map` raises `KeyError`; otherwise the temp volume/mount pair is
appended to both lists. -/
def addCrossVolumes (pvs : List WsPersistentVolume) :
    List AccessPoint → List V1Volume × List V1VolumeMount →
    Except String (List V1Volume × List V1VolumeMount)
  | [], acc => Except.ok acc
  | ap :: rest, acc =>
    match pvNameMapGet pvs ap.name with
    | none => Except.error ("KeyError: " ++ ap.name)
    | some pvc_mount_path =>
      let p := crossVolumePair pvc_mount_path
      addCrossVolumes pvs rest (acc.1 ++ [p.1], acc.2 ++ [p.2])

/-- The observable parts of the kubernetes Job built by `to_k8s_job`: the
pod volumes, the container volume mounts, and the container arguments. -/
structure K8sJob where
  volumes : List V1Volume
  volume_mounts : List V1VolumeMount
  args : List String
deriving DecidableEq, Repr

/-- Model of `CalrissianJob.to_k8s_job` (job.py lines 155-371): base
volumes, optional env-var and node-selector volumes, workspace-registry
volumes, and — when the calling workspace differs from the executing one —
the temporary cross-workspace volumes fetched from the calling workspace
custom resource (a failed fetch is re-raised). -/
def to_k8s_job (j : CalrissianJob) (env : ClusterEnv) : Except String K8sJob :=
  let volumes := [workflow_volume j, params_volume j, calrissian_wdir_volume j]
  let volume_mounts := [workflow_volume_mount, params_volume_mount, calrissian_wdir_volume_mount]
  let acc := (volumes, volume_mounts)
  let acc := if j.pod_env_vars ≠ [] then
      (acc.1 ++ [pod_env_vars_volume j], acc.2 ++ [pod_env_vars_volume_mount])
    else acc
  let acc := if j.pod_node_selector ≠ [] then
      (acc.1 ++ [pod_node_selector_volume j], acc.2 ++ [pod_node_selector_volume_mount])
    else acc
  match read_pvcs_list env with
  | Except.error e => Except.error e
  | Except.ok pvcs_list =>
    let acc := addWorkspaceVolumes env pvcs_list acc
    if j.calling_workspace ≠ j.executing_workspace then
      match env.calling_workspace_crd with
      | none => Except.error "Error in getting workspace CRD"
      | some crd =>
        match addCrossVolumes crd.persistentVolumes crd.accessPoints acc with
        | Except.error e => Except.error e
        | Except.ok acc => Except.ok ⟨acc.1, acc.2, get_calrissian_args j⟩
    else Except.ok ⟨acc.1, acc.2, get_calrissian_args j⟩

/-- A volume is a temporary cross-workspace volume when its name carries
the `temp-pv-` naming convention of the cross-workspace branch. -/
def isTempVolume (v : V1Volume) : Bool :=
  List.isPrefixOf "temp-pv-".data v.name.data

/-- A mount is a temporary cross-workspace mount when its volume name
carries the `temp-pv-` naming convention. -/
def isTempMount (m : V1VolumeMount) : Bool :=
  List.isPrefixOf "temp-pv-".data m.name.data

/-- Positional alignment of the volume and mount lists: the mount at each
position references the volume at the same position. -/
def Aligned (vs : List V1Volume) (ms : List V1VolumeMount) : Prop :=
  vs.map V1Volume.name = ms.map V1VolumeMount.name

/- ============ execution.py : artifact getters and monitor ============ -/

/-- Model of the `ContainerNames` enum of job.py (lines 19-25): only
`CALRISSIAN` is defined; the sidecar members are commented out in the
source. -/
inductive ContainerNames
  | CALRISSIAN
deriving DecidableEq, Repr

/-- The `.value` of a `ContainerNames` member. -/
def containerValue : ContainerNames → String
  | ContainerNames.CALRISSIAN => "calrissian"

/-- Python attribute lookup on the `ContainerNames` enum class: accessing a
member that is not defined raises `AttributeError`. -/
def containerNamesAttr (attr : String) : Except String ContainerNames :=
  if attr == "CALRISSIAN" then Except.ok ContainerNames.CALRISSIAN
  else Except.error ("AttributeError: ContainerNames has no attribute " ++ attr)

/-- The cluster calls a getter can make, recorded as an effect trace. -/
inductive Effect
  | statusQuery
  | podList
  | podLogRead
deriving DecidableEq, Repr

/-- Cluster-side state consumed by the artifact getters: what a job-status
query would return, the pods matching the job-name label selector (in list
order), the per-pod per-container log body, and the `json.loads` success
oracle for a log body. -/
structure ExecEnv where
  status : V1JobStatus
  pods : List String
  containerLog : String → String → String
  jsonOk : String → Bool

/-- A value returned by a getter: Python `None` (implicit return), a raw
log text, or a structure parsed from a log body by `json.loads`. -/
inductive PyValue
  | none
  | raw (text : String)
  | parsed (body : String)
deriving DecidableEq, Repr

/-- Python truthiness of a bound method object: `if self.is_complete:` and
`if self.is_succeeded:` test the method object itself (no call
parentheses), and an object is always truthy. -/
def boundMethodTruthy : Bool := true

/-- Model of `_get_container_log` (execution.py lines 91-113): list the
pods for the job-name label selector, take `items[0]` (raising
`IndexError` on an empty list), and read the named container's log. -/
def get_container_log (env : ExecEnv) (container : ContainerNames) :
    Except String String × List Effect :=
  match env.pods with
  | [] => (Except.error "IndexError: list index out of range", [Effect.podList])
  | p :: _ =>
    (Except.ok (env.containerLog p (containerValue container)),
     [Effect.podList, Effect.podLogRead])

/-- Model of `get_output` (execution.py lines 76-79): the guard
`if self.is_succeeded:` tests the bound method (always truthy, no status
query); then `ContainerNames.SIDECAR_OUTPUT` is evaluated (the member does
not exist), and on success the log body would be passed to `json.loads`. -/
def get_output (env : ExecEnv) : Except String PyValue × List Effect :=
  if boundMethodTruthy then
    match containerNamesAttr "SIDECAR_OUTPUT" with
    | Except.error e => (Except.error e, [])
    | Except.ok c =>
      match get_container_log env c with
      | (Except.error e, tr) => (Except.error e, tr)
      | (Except.ok body, tr) =>
        if env.jsonOk body then (Except.ok (PyValue.parsed body), tr)
        else (Except.error "json.decoder.JSONDecodeError", tr)
  else (Except.ok PyValue.none, [])

/-- Model of `get_log` (execution.py lines 81-84): the guard
`if self.is_complete:` tests the bound method (always truthy, no status
query); then the `calrissian` container log is returned as raw text. -/
def get_log (env : ExecEnv) : Except String PyValue × List Effect :=
  if boundMethodTruthy then
    match containerNamesAttr "CALRISSIAN" with
    | Except.error e => (Except.error e, [])
    | Except.ok c =>
      match get_container_log env c with
      | (Except.error e, tr) => (Except.error e, tr)
      | (Except.ok body, tr) => (Except.ok (PyValue.raw body), tr)
  else (Except.ok PyValue.none, [])

/-- Model of `get_usage_report` (execution.py lines 86-89): the guard
`if self.is_complete:` tests the bound method (always truthy, no status
query); then `ContainerNames.SIDECAR_USAGE` is evaluated (the member does
not exist), and on success the log body would be passed to `json.loads`. -/
def get_usage_report (env : ExecEnv) : Except String PyValue × List Effect :=
  if boundMethodTruthy then
    match containerNamesAttr "SIDECAR_USAGE" with
    | Except.error e => (Except.error e, [])
    | Except.ok c =>
      match get_container_log env c with
      | (Except.error e, tr) => (Except.error e, tr)
      | (Except.ok body, tr) =>
        if env.jsonOk body then (Except.ok (PyValue.parsed body), tr)
        else (Except.error "json.decoder.JSONDecodeError", tr)
  else (Except.ok PyValue.none, [])

/-- `is_active` as a predicate of one `get_status` result (execution.py
lines 69-74). -/
def statusIsActive (s : Option JobStatus) : Bool := s == some JobStatus.ACTIVE

/-- `is_complete` as a predicate of one `get_status` result (execution.py
lines 55-60). -/
def statusIsComplete (s : Option JobStatus) : Bool :=
  s == some JobStatus.SUCCEEDED || s == some JobStatus.FAILED

/-- `is_succeeded` as a predicate of one `get_status` result (execution.py
lines 62-67). -/
def statusIsSucceeded (s : Option JobStatus) : Bool := s == some JobStatus.SUCCEEDED

/-- What one run of `monitor` did: the sleeps performed (each entry is the
interval slept), whether the completion message was logged, whether the
success message was logged, and whether the not-submitted warning was
logged. -/
structure MonitorResult where
  sleeps : List Nat
  logged_complete : Bool
  logged_success : Bool
  warned_not_submitted : Bool
deriving DecidableEq, Repr

/-- The `while self.is_active(): ... time.sleep(interval)` loop of
`monitor`, driven by a status oracle indexed by query number; `q` is the
index of the next status query, `fuel` bounds the iterations (the Python
loop can run forever).  Returns the next query index after loop exit and
the sleeps performed. -/
def monitorLoop (statusAt : Nat → Option JobStatus) (interval : Nat) :
    Nat → List Nat → Nat → Option (Nat × List Nat)
  | _, _, 0 => none
  | q, sleeps, fuel + 1 =>
    if statusIsActive (statusAt q) then
      monitorLoop statusAt interval (q + 1) (sleeps ++ [interval]) fuel
    else some (q + 1, sleeps)

/-- Model of `monitor` (execution.py lines 145-159): if `is_active()` (one
status query), loop while `is_active()` sleeping `interval` between
checks, then log whether `is_complete()` and whether `is_succeeded()`
(one further status query each); otherwise warn that the job is not
submitted.  `statusAt n` is the result of the n-th `get_status` call. -/
def monitor (statusAt : Nat → Option JobStatus) (interval fuel : Nat) :
    Option MonitorResult :=
  if statusIsActive (statusAt 0) then
    match monitorLoop statusAt interval 1 [] fuel with
    | none => none
    | some (next, sleeps) =>
      some ⟨sleeps, statusIsComplete (statusAt next),
            statusIsSucceeded (statusAt (next + 1)), false⟩
  else some ⟨[], false, false, true⟩

/-- The status oracle of claim C4: `ACTIVE` to the first two status
queries, `SUCCEEDED` to every query thereafter. -/
def c4StatusOracle (n : Nat) : Option JobStatus :=
  if n < 2 then some JobStatus.ACTIVE else some JobStatus.SUCCEEDED

/- ===================== concrete sample values ===================== -/

/-- A concrete execution request whose calling workspace equals its
executing workspace, with no optional inputs. -/
def jobSame : CalrissianJob :=
  ⟨"id-1", none, [], [], "8G", "16", "sa", "calling-sa",
   false, false, false, "ws-a", "ws-a", "wdir-claim"⟩

/-- A concrete execution request whose calling workspace differs from its
executing workspace, with no optional inputs. -/
def jobCross : CalrissianJob :=
  ⟨"id-2", none, [], [], "8G", "16", "sa", "calling-sa",
   false, false, false, "ws-a", "ws-b", "wdir-claim"⟩

/-- A healthy cluster environment: the registry ConfigMap is readable and
empty, its payload parses to the empty list, no PVC exists, and no calling
workspace custom resource is available. -/
def envOk : ClusterEnv := ⟨some ⟨[]⟩, fun _ => some [], fun _ => false, none⟩

/-- A cluster environment where reading the `workspace-config` ConfigMap
raises. -/
def envReadFail : ClusterEnv := ⟨none, fun _ => some [], fun _ => false, none⟩

/-- A cluster environment whose stored PVC list is not parseable JSON. -/
def envBadJson : ClusterEnv :=
  ⟨some ⟨[("pvcs", "not json")]⟩, fun _ => none, fun _ => false, none⟩

/-- A cluster environment whose calling-workspace custom resource exists
but lists no EFS access points. -/
def envCrossEmpty : ClusterEnv :=
  ⟨some ⟨[]⟩, fun _ => some [], fun _ => false, some ⟨[], []⟩⟩

/-- The job spec built from a request when no optional, registry or
cross-workspace volume is added. -/
def baseSpec (j : CalrissianJob) : K8sJob :=
  ⟨[workflow_volume j, params_volume j, calrissian_wdir_volume j],
   [workflow_volume_mount, params_volume_mount, calrissian_wdir_volume_mount],
   get_calrissian_args j⟩

/-- A concrete execution environment: the job has one pod whose logs are
available and parse as JSON, and the cluster reports the job succeeded. -/
def envPod : ExecEnv :=
  ⟨⟨none, some 10, some 1, none, some 20, none⟩, ["pod-1"],
   fun _ _ => "the log body", fun _ => true⟩

/-- A concrete execution environment identical to `envPod` except that the
cluster reports the job as still active. -/
def envPodActive : ExecEnv :=
  ⟨⟨some 1, some 10, none, none, none, none⟩, ["pod-1"],
   fun _ _ => "the log body", fun _ => true⟩

/- ===================== theorems ===================== -/

/-- Claim C1: `get_status` classifies by the exact precedence absent-both →
ACTIVE, active nonzero → ACTIVE, succeeded nonzero → SUCCEEDED, failed
nonzero → FAILED, and the four listed field combinations map to ACTIVE,
ACTIVE, SUCCEEDED, FAILED respectively. -/
theorem c1_get_status_precedence (s : V1JobStatus) :
    (s.active = none ∧ s.start_time = none → get_status s = some JobStatus.ACTIVE) ∧
    (¬(s.active = none ∧ s.start_time = none) → truthyCount s.active = true →
      get_status s = some JobStatus.ACTIVE) ∧
    (¬(s.active = none ∧ s.start_time = none) → truthyCount s.active = false →
      truthyCount s.succeeded = true → get_status s = some JobStatus.SUCCEEDED) ∧
    (¬(s.active = none ∧ s.start_time = none) → truthyCount s.active = false →
      truthyCount s.succeeded = false → truthyCount s.failed = true →
      get_status s = some JobStatus.FAILED) ∧
    get_status ⟨none, none, none, none, none, none⟩ = some JobStatus.ACTIVE ∧
    (∀ t, get_status ⟨some 1, some t, none, none, none, none⟩ = some JobStatus.ACTIVE) ∧
    (∀ t, get_status ⟨none, some t, some 1, none, none, none⟩ = some JobStatus.SUCCEEDED) ∧
    (∀ t, get_status ⟨none, some t, none, some 1, none, none⟩ = some JobStatus.FAILED) := by
  refine ⟨?_, ?_, ?_, ?_, rfl, fun t => rfl, fun t => rfl, fun t => rfl⟩ <;>
    intros <;> simp_all [get_status]

/-- Witness for C1: the theorem applied at two concrete status objects. -/
theorem c1_get_status_witness :
    get_status ⟨none, none, none, none, none, none⟩ = some JobStatus.ACTIVE ∧
    get_status ⟨some 1, some 7, none, none, none, none⟩ = some JobStatus.ACTIVE :=
  ⟨(c1_get_status_precedence ⟨none, none, none, none, none, none⟩).1 ⟨rfl, rfl⟩,
   (c1_get_status_precedence ⟨some 1, some 7, none, none, none, none⟩).2.1
     (by simp) rfl⟩

/-- Counterexample for C8: with no explicit completion time and two
conditions whose transition times are 1 and then 5, the code returns the
first condition's time 1, while the most recent transition time among the
conditions is 5. -/
theorem c8_counterexample :
    get_completion_time ⟨none, none, none, none, none, some [⟨1⟩, ⟨5⟩]⟩ =
      Except.ok (some 1) ∧
    mostRecentTransitionTime [⟨1⟩, ⟨5⟩] = some 5 ∧ (1 : Nat) ≠ 5 :=
  ⟨rfl, by decide, by decide⟩

/-- Amended C8: `get_completion_time` returns the explicit completion
timestamp when present; when it is absent it returns the FIRST condition's
transition time if `conditions` is a non-empty list, raises `IndexError`
on an empty list, and returns `None` when `conditions` is absent. -/
theorem c8_amended_first_condition (s : V1JobStatus) :
    (∀ t, s.completion_time = some t → get_completion_time s = Except.ok (some t)) ∧
    (∀ c rest, s.completion_time = none → s.conditions = some (c :: rest) →
      get_completion_time s = Except.ok (some c.last_transition_time)) ∧
    (s.completion_time = none → s.conditions = some [] →
      get_completion_time s = Except.error "IndexError: list index out of range") ∧
    (s.completion_time = none → s.conditions = none →
      get_completion_time s = Except.ok none) := by
  refine ⟨?_, ?_, ?_, ?_⟩ <;> intros <;> simp_all [get_completion_time]

/-- Witness for the amended C8: the fallback branch at a concrete status. -/
theorem c8_witness :
    get_completion_time ⟨none, none, none, none, none, some [⟨3⟩]⟩ =
      Except.ok (some 3) :=
  (c8_amended_first_condition ⟨none, none, none, none, none, some [⟨3⟩]⟩).2.1
    ⟨3⟩ [] rfl rfl

/-- Counterexample for C4: with the oracle answering ACTIVE, ACTIVE and
then SUCCEEDED forever, `monitor` sleeps exactly once (the `if` guard
consumes the first ACTIVE, the first `while` check the second; the next
check exits the loop), not twice as claimed; it does report completion and
success. -/
theorem c4_counterexample :
    monitor c4StatusOracle 5 10 = some ⟨[5], true, true, false⟩ ∧
    (monitor c4StatusOracle 5 10).map (fun r => r.sleeps.length) ≠ some 2 :=
  ⟨rfl, by decide⟩

/-- Amended C4: driven by the oracle ACTIVE, ACTIVE, then SUCCEEDED
forever, `monitor` performs exactly ONE sleep of the given interval and
terminates reporting that the run completed and succeeded (for any loop
fuel at least 2). -/
theorem c4_amended_one_sleep (interval fuel : Nat) (h : 2 ≤ fuel) :
    monitor c4StatusOracle interval fuel = some ⟨[interval], true, true, false⟩ := by
  obtain ⟨n, rfl⟩ : ∃ n, fuel = n + 2 := ⟨fuel - 2, by omega⟩
  rfl

/-- Witness for the amended C4 at interval 7 and fuel 2. -/
theorem c4_witness : monitor c4StatusOracle 7 2 = some ⟨[7], true, true, false⟩ :=
  c4_amended_one_sleep 7 2 (by decide)

/-- Helper: the head of a `dropWhile (== '-')` result is never `'-'`. -/
theorem head_dropWhile_ne_dash (l : List Char) :
    (l.dropWhile (fun c => c == '-')).head? ≠ some '-' := by
  induction l with
  | nil => simp [List.dropWhile]
  | cons c cs ih =>
    rw [List.dropWhile_cons]
    split
    · exact ih
    · next hc =>
      simp only [List.head?_cons, ne_eq, Option.some.injEq]
      intro he
      exact hc (by simp [he])

/-- Helper: stripping trailing dashes yields a list with no trailing
dash. -/
theorem stripDashes_no_dash (l : List Char) : endsWithDash (stripDashes l) = false := by
  simp only [endsWithDash, stripDashes, List.getLast?_reverse, beq_eq_false_iff_ne, ne_eq]
  exact head_dropWhile_ne_dash l.reverse

/-- Helper: stripping trailing dashes yields a prefix of the input. -/
theorem stripDashes_prefixOf (l : List Char) : stripDashes l <+: l := by
  have h : (stripDashes l).reverse <:+ l.reverse := by
    simpa [stripDashes] using List.dropWhile_suffix (l := l.reverse) (fun c => c == '-')
  exact List.reverse_suffix.mp h

/-- Helper: the shortened name has length at most 63. -/
theorem shorten_length_le (l : List Char) : (shorten_namespace_list l).length ≤ 63 := by
  induction l using shorten_namespace_list.induct with
  | case1 l h ih => rw [shorten_namespace_list, dif_pos h]; exact ih
  | case2 l h => rw [shorten_namespace_list, dif_neg h]; omega

/-- Helper: shortening preserves the absence of a trailing dash. -/
theorem shorten_no_dash_of_no_dash (l : List Char) :
    endsWithDash l = false → endsWithDash (shorten_namespace_list l) = false := by
  induction l using shorten_namespace_list.induct with
  | case1 l hlt ih =>
    intro _
    rw [shorten_namespace_list, dif_pos hlt]
    exact ih (stripDashes_no_dash _)
  | case2 l hlt =>
    intro h
    rw [shorten_namespace_list, dif_neg hlt]
    exact h

/-- Helper: the shortened name is a prefix of the input. -/
theorem shorten_prefixOf (l : List Char) : shorten_namespace_list l <+: l := by
  induction l using shorten_namespace_list.induct with
  | case1 l hlt ih =>
    rw [shorten_namespace_list, dif_pos hlt]
    exact ih.trans ((stripDashes_prefixOf _).trans ( List.dropLast_prefix l))
  | case2 l hlt =>
    rw [shorten_namespace_list, dif_neg hlt]

/-- Claim C5: for every input of length greater than 63, the shortening
function returns a string of length at most 63 that does not end with a
dash and is a prefix of the input. -/
theorem c5_shorten_spec (l : List Char) (h : 63 < l.length) :
    (shorten_namespace_list l).length ≤ 63 ∧
    endsWithDash (shorten_namespace_list l) = false ∧
    shorten_namespace_list l <+: l := by
  refine ⟨shorten_length_le l, ?_, shorten_prefixOf l⟩
  rw [shorten_namespace_list, dif_pos h]
  exact shorten_no_dash_of_no_dash _ (stripDashes_no_dash _)

/-- Witness for C5 at a concrete 64-character input. -/
theorem c5_witness :
    (shorten_namespace_list (List.replicate 64 'a')).length ≤ 63 ∧
    endsWithDash (shorten_namespace_list (List.replicate 64 'a')) = false ∧
    shorten_namespace_list (List.replicate 64 'a') <+: List.replicate 64 'a' :=
  c5_shorten_spec (List.replicate 64 'a') (by decide)

/-- Claim C6: the container argument list is assembled in exactly the
claimed order — stdout, stderr, usage-report, max-RAM, max-cores,
pod-service-account, tmp-outdir-prefix, outdir, then the conditional
node-selector path, env-vars path, debug flag, no-read-only flag and
tool-logs basepath, then executing-workspace, calling-workspace,
calling-service-account, the enable-extensions flag, the positional
workflow reference (with a fragment exactly when an entry point was
supplied) and the parameter file path. -/
theorem c6_args_order (j : CalrissianJob) :
    get_calrissian_args j =
      ["--stdout", "/calrissian/output.json", "--stderr", "/calrissian/stderr.log",
       "--usage-report", "/calrissian/report.json",
       "--max-ram", j.max_ram, "--max-cores", j.max_cores,
       "--pod-serviceaccount", j.service_account,
       "--tmp-outdir-prefix", "/calrissian/", "--outdir", "/calrissian/"]
      ++ (if j.pod_node_selector ≠ [] then
            ["--pod-nodeselectors", "/pod-node-selector/pod_nodeselectors.yml"] else [])
      ++ (if j.pod_env_vars ≠ [] then
            ["--pod-env-vars", "/pod-env-vars/pod_env_vars.json"] else [])
      ++ (if j.debug then ["--debug"] else [])
      ++ (if j.no_read_only then ["--no-read-only"] else [])
      ++ (if j.tool_logs then ["--tool-logs-basepath", "/calrissian"] else [])
      ++ ["--executing-workspace", j.executing_workspace,
          "--calling-workspace", j.calling_workspace,
          "--calling-service-account", j.calling_service_account, "--enable-ext"]
      ++ (match j.cwl_entry_point with
          | some ep => ["/workflow-input/workflow.cwl#" ++ ep]
          | none => ["/workflow-input/workflow.cwl"])
      ++ ["/workflow-params/params.yml"] := by
  have h1 : pathJoin "/calrissian" "output.json" = "/calrissian/output.json" := by decide
  have h2 : pathJoin "/calrissian" "stderr.log" = "/calrissian/stderr.log" := by decide
  have h3 : pathJoin "/calrissian" "report.json" = "/calrissian/report.json" := by decide
  have h4 : pathJoin "/pod-node-selector" "pod_nodeselectors.yml" =
      "/pod-node-selector/pod_nodeselectors.yml" := by decide
  have h5 : pathJoin "/pod-env-vars" "pod_env_vars.json" =
      "/pod-env-vars/pod_env_vars.json" := by decide
  have h6 : ("/calrissian" ++ "/" : String) = "/calrissian/" := rfl
  rcases j with ⟨jid, ep, ev, ns, mr, mc, sa, csa, dbg, nro, tl, cw, ew, wd⟩
  cases ep <;> by_cases hns : ns = [] <;> by_cases hev : ev = [] <;>
    cases dbg <;> cases nro <;> cases tl <;>
    simp [get_calrissian_args, calrissian_base_path, h1, h2, h3, h4, h5, h6, hns, hev]

/-- Claim C2 (code-bug evidence): if reading the workspace-registry
ConfigMap fails, the build does NOT degrade — the `except` branch sets
`workspace_config = None` and the following unconditional attribute access
raises, aborting `to_k8s_job`; by contrast an unparseable stored PVC list
does degrade to the empty list and the build succeeds. -/
theorem c2_read_failure_aborts_build :
    to_k8s_job jobSame envReadFail =
      Except.error "AttributeError: NoneType object has no attribute data" ∧
    to_k8s_job jobSame envBadJson = Except.ok (baseSpec jobSame) :=
  ⟨rfl, rfl⟩

/-- Helper: appending a volume/mount pair with equal names preserves
alignment. -/
theorem aligned_app (vs : List V1Volume) (ms : List V1VolumeMount)
    (h : Aligned vs ms) (v : V1Volume) (m : V1VolumeMount) (hn : v.name = m.name) :
    Aligned (vs ++ [v]) (ms ++ [m]) := by
  simp only [Aligned, List.map_append, List.map_cons, List.map_nil] at h ⊢
  rw [h, hn]

/-- Helper: a conditional append of a volume/mount pair with equal names
preserves alignment. -/
theorem aligned_ite (c : Prop) [Decidable c]
    (acc : List V1Volume × List V1VolumeMount) (v : V1Volume) (m : V1VolumeMount)
    (hacc : Aligned acc.1 acc.2) (hn : v.name = m.name) :
    Aligned (if c then (acc.1 ++ [v], acc.2 ++ [m]) else acc).1
            (if c then (acc.1 ++ [v], acc.2 ++ [m]) else acc).2 := by
  split
  · exact aligned_app acc.1 acc.2 hacc v m hn
  · exact hacc

/-- Helper: the workspace-registry loop appends volume/mount pairs with
equal names, so it preserves alignment. -/
theorem addWorkspaceVolumes_aligned (env : ClusterEnv) (l : List PvcMap) :
    ∀ acc : List V1Volume × List V1VolumeMount, Aligned acc.1 acc.2 →
      Aligned (addWorkspaceVolumes env l acc).1 (addWorkspaceVolumes env l acc).2 := by
  induction l with
  | nil => intro acc h; exact h
  | cons m rest ih =>
    intro acc h
    unfold addWorkspaceVolumes
    refine ih _ ?_
    unfold workspaceStep
    split
    · exact aligned_app acc.1 acc.2 h _ _ rfl
    · exact h

/-- Helper: the cross-workspace loop appends volume/mount pairs with equal
names, so on success it preserves alignment. -/
theorem addCrossVolumes_aligned (pvs : List WsPersistentVolume) (aps : List AccessPoint) :
    ∀ acc res, addCrossVolumes pvs aps acc = Except.ok res →
      Aligned acc.1 acc.2 → Aligned res.1 res.2 := by
  induction aps with
  | nil =>
    intro acc res h ha
    simp only [addCrossVolumes, Except.ok.injEq] at h
    rw [← h]
    exact ha
  | cons ap rest ih =>
    intro acc res h ha
    unfold addCrossVolumes at h
    cases hm : pvNameMapGet pvs ap.name with
    | none => rw [hm] at h; cases h
    | some path =>
      rw [hm] at h
      exact ih _ _ h (aligned_app acc.1 acc.2 ha _ _ rfl)

/-- Helper: every successful build has aligned volume and mount lists. -/
theorem to_k8s_job_aligned (j : CalrissianJob) (env : ClusterEnv) (spec : K8sJob)
    (h : to_k8s_job j env = Except.ok spec) :
    Aligned spec.volumes spec.volume_mounts := by
  have hbase : Aligned
      [workflow_volume j, params_volume j, calrissian_wdir_volume j]
      [workflow_volume_mount, params_volume_mount, calrissian_wdir_volume_mount] := rfl
  simp only [to_k8s_job] at h
  split at h
  · cases h
  · split at h
    · split at h
      · cases h
      · split at h
        · cases h
        · next acc4 hacc4 =>
          simp only [Except.ok.injEq] at h
          rw [← h]
          exact addCrossVolumes_aligned _ _ _ _ hacc4
            (addWorkspaceVolumes_aligned _ _ _
              (aligned_ite _ _ _ _ (aligned_ite _ _ _ _ hbase rfl) rfl))
    · simp only [Except.ok.injEq] at h
      rw [← h]
      exact addWorkspaceVolumes_aligned _ _ _
        (aligned_ite _ _ _ _ (aligned_ite _ _ _ _ hbase rfl) rfl)

/-- Claim C9: for every execution request and every registry state, a
successfully built job spec has volume and mount lists of the same length,
and the volume at each position is the one referenced by the mount at the
same position. -/
theorem c9_volumes_mounts_positionally_aligned (j : CalrissianJob) (env : ClusterEnv)
    (spec : K8sJob) (h : to_k8s_job j env = Except.ok spec) :
    spec.volumes.length = spec.volume_mounts.length ∧
    ∀ i, (hv : i < spec.volumes.length) → (hm : i < spec.volume_mounts.length) →
      (spec.volumes[i]).name = (spec.volume_mounts[i]).name := by
  have ha := to_k8s_job_aligned j env spec h
  have hlen : spec.volumes.length = spec.volume_mounts.length := by
    simpa using congrArg List.length ha
  refine ⟨hlen, ?_⟩
  intro i hv hm
  have h2 := congrArg (fun l => l[i]?) ha
  simp only [List.getElem?_map] at h2
  rw [List.getElem?_eq_getElem hv, List.getElem?_eq_getElem hm] at h2
  simpa using h2

/-- Witness for C9 at a concrete request and registry state. -/
theorem c9_witness :
    (baseSpec jobSame).volumes.length = (baseSpec jobSame).volume_mounts.length :=
  (c9_volumes_mounts_positionally_aligned jobSame envOk (baseSpec jobSame) rfl).1

/-- Counterexample for C7: with differing workspaces but a calling
workspace descriptor that lists no access points, the build succeeds and
the spec contains NO temporary cross-workspace volume or mount — refuting
the "if" direction of the claimed equivalence. -/
theorem c7_counterexample :
    jobCross.calling_workspace ≠ jobCross.executing_workspace ∧
    to_k8s_job jobCross envCrossEmpty = Except.ok (baseSpec jobCross) ∧
    (baseSpec jobCross).volumes.filter isTempVolume = [] ∧
    (baseSpec jobCross).volume_mounts.filter isTempMount = [] :=
  ⟨by decide, rfl, by decide, by decide⟩

/-- Helper: workspace-registry volumes are never temp volumes. -/
theorem isTempVolume_wsefs (s : String) (src : VolumeSource) :
    isTempVolume ⟨"workspace-efs-" ++ s, src⟩ = false := rfl

/-- Helper: workspace-registry mounts are never temp mounts. -/
theorem isTempMount_wsefs (p s : String) (ro : Option Bool) :
    isTempMount ⟨p, "workspace-efs-" ++ s, ro⟩ = false := rfl

/-- Helper: the workspace-registry loop adds no temp volume or mount. -/
theorem addWorkspaceVolumes_filter_temp (env : ClusterEnv) (l : List PvcMap) :
    ∀ acc : List V1Volume × List V1VolumeMount,
      (addWorkspaceVolumes env l acc).1.filter isTempVolume =
        acc.1.filter isTempVolume ∧
      (addWorkspaceVolumes env l acc).2.filter isTempMount =
        acc.2.filter isTempMount := by
  induction l with
  | nil => intro acc; exact ⟨rfl, rfl⟩
  | cons m rest ih =>
    intro acc
    unfold addWorkspaceVolumes
    refine ⟨((ih _).1).trans ?_, ((ih _).2).trans ?_⟩ <;>
    · unfold workspaceStep
      split
      · simp [List.filter_append, isTempVolume_wsefs, isTempMount_wsefs]
      · rfl

/-- Helper: none of the base, env-var or node-selector volumes is a temp
volume, and likewise for the mounts. -/
theorem base_filter_temp (j : CalrissianJob) :
    (if j.pod_node_selector ≠ [] then
       ((if j.pod_env_vars ≠ [] then
           ([workflow_volume j, params_volume j, calrissian_wdir_volume j] ++
              [pod_env_vars_volume j],
            [workflow_volume_mount, params_volume_mount, calrissian_wdir_volume_mount] ++
              [pod_env_vars_volume_mount])
         else
           ([workflow_volume j, params_volume j, calrissian_wdir_volume j],
            [workflow_volume_mount, params_volume_mount,
             calrissian_wdir_volume_mount])).1 ++ [pod_node_selector_volume j],
        (if j.pod_env_vars ≠ [] then
           ([workflow_volume j, params_volume j, calrissian_wdir_volume j] ++
              [pod_env_vars_volume j],
            [workflow_volume_mount, params_volume_mount, calrissian_wdir_volume_mount] ++
              [pod_env_vars_volume_mount])
         else
           ([workflow_volume j, params_volume j, calrissian_wdir_volume j],
            [workflow_volume_mount, params_volume_mount,
             calrissian_wdir_volume_mount])).2 ++ [pod_node_selector_volume_mount])
     else
       (if j.pod_env_vars ≠ [] then
          ([workflow_volume j, params_volume j, calrissian_wdir_volume j] ++
             [pod_env_vars_volume j],
           [workflow_volume_mount, params_volume_mount, calrissian_wdir_volume_mount] ++
             [pod_env_vars_volume_mount])
        else
          ([workflow_volume j, params_volume j, calrissian_wdir_volume j],
           [workflow_volume_mount, params_volume_mount,
            calrissian_wdir_volume_mount]))).1.filter isTempVolume = [] ∧
    (if j.pod_node_selector ≠ [] then
       ((if j.pod_env_vars ≠ [] then
           ([workflow_volume j, params_volume j, calrissian_wdir_volume j] ++
              [pod_env_vars_volume j],
            [workflow_volume_mount, params_volume_mount, calrissian_wdir_volume_mount] ++
              [pod_env_vars_volume_mount])
         else
           ([workflow_volume j, params_volume j, calrissian_wdir_volume j],
            [workflow_volume_mount, params_volume_mount,
             calrissian_wdir_volume_mount])).1 ++ [pod_node_selector_volume j],
        (if j.pod_env_vars ≠ [] then
           ([workflow_volume j, params_volume j, calrissian_wdir_volume j] ++
              [pod_env_vars_volume j],
            [workflow_volume_mount, params_volume_mount, calrissian_wdir_volume_mount] ++
              [pod_env_vars_volume_mount])
         else
           ([workflow_volume j, params_volume j, calrissian_wdir_volume j],
            [workflow_volume_mount, params_volume_mount,
             calrissian_wdir_volume_mount])).2 ++ [pod_node_selector_volume_mount])
     else
       (if j.pod_env_vars ≠ [] then
          ([workflow_volume j, params_volume j, calrissian_wdir_volume j] ++
             [pod_env_vars_volume j],
           [workflow_volume_mount, params_volume_mount, calrissian_wdir_volume_mount] ++
             [pod_env_vars_volume_mount])
        else
          ([workflow_volume j, params_volume j, calrissian_wdir_volume j],
           [workflow_volume_mount, params_volume_mount,
            calrissian_wdir_volume_mount]))).2.filter isTempMount = [] := by
  constructor <;>
    · split <;> split <;>
        simp [List.filter_append, List.filter_cons, isTempVolume, isTempMount,
          workflow_volume, params_volume, calrissian_wdir_volume, pod_env_vars_volume,
          pod_node_selector_volume, workflow_volume_mount, params_volume_mount,
          calrissian_wdir_volume_mount, pod_env_vars_volume_mount,
          pod_node_selector_volume_mount, volume_calrissian_wdir, calrissian_base_path]

/-- Amended C7: temporary cross-workspace claim/volume pairs are added
only when the calling workspace differs from the executing workspace (and
even then one pair per access point, so possibly none); in particular,
when they are equal the built spec contains no temp volume and no temp
mount. -/
theorem c7_amended_no_temp_when_equal (j : CalrissianJob) (env : ClusterEnv)
    (spec : K8sJob) (h : to_k8s_job j env = Except.ok spec)
    (heq : j.calling_workspace = j.executing_workspace) :
    spec.volumes.filter isTempVolume = [] ∧
    spec.volume_mounts.filter isTempMount = [] := by
  simp only [to_k8s_job] at h
  split at h
  · cases h
  · rw [if_neg (by simp [heq])] at h
    simp only [Except.ok.injEq] at h
    rw [← h]
    refine ⟨((addWorkspaceVolumes_filter_temp _ _ _).1).trans ?_,
            ((addWorkspaceVolumes_filter_temp _ _ _).2).trans ?_⟩
    · exact (base_filter_temp j).1
    · exact (base_filter_temp j).2

/-- Witness for the amended C7 at a concrete request with equal
workspaces. -/
theorem c7_witness :
    (baseSpec jobSame).volumes.filter isTempVolume = [] ∧
    (baseSpec jobSame).volume_mounts.filter isTempMount = [] :=
  c7_amended_no_temp_when_equal jobSame envOk (baseSpec jobSame) rfl rfl

/-- Claim C3 (code-bug evidence): `get_output` and `get_usage_report`
never reach the pod lookup, the log read or the JSON parse — evaluating
`ContainerNames.SIDECAR_OUTPUT` / `ContainerNames.SIDECAR_USAGE` raises
`AttributeError` because those enum members are commented out in job.py;
`get_log` (whose member `CALRISSIAN` exists) does locate the first pod and
return the raw log text.  Evaluated at an environment with one pod whose
log body would parse as JSON. -/
theorem c3_sidecar_members_missing :
    get_output envPod =
      (Except.error "AttributeError: ContainerNames has no attribute SIDECAR_OUTPUT", []) ∧
    get_usage_report envPod =
      (Except.error "AttributeError: ContainerNames has no attribute SIDECAR_USAGE", []) ∧
    get_log envPod =
      (Except.ok (PyValue.raw "the log body"), [Effect.podList, Effect.podLogRead]) :=
  ⟨rfl, rfl, rfl⟩

/-- Counterexample for C10: at a concrete environment whose job status is
ACTIVE and which has a pod with a readable log, `get_output` and
`get_usage_report` do NOT proceed to the pod lookup — their effect traces
are empty (they fail at the enum attribute before any cluster call) —
refuting the claim that all three getters proceed to the pod lookup and
log read. -/
theorem c10_counterexample :
    (get_output envPodActive).2 = [] ∧
    Effect.podList ∉ (get_output envPodActive).2 ∧
    (get_usage_report envPodActive).2 = [] ∧
    Effect.podList ∉ (get_usage_report envPodActive).2 :=
  ⟨rfl, by decide, rfl, by decide⟩

/-- Amended C10: the status preconditions are indeed vacuous — each getter
guards on the bound method object, which is always truthy, so no getter
ever queries the job status, for every environment (every status, pod list
and log).  `get_log` always proceeds to the pod lookup; `get_output` and
`get_usage_report` pass the guard but stop at the container-name
resolution, before any pod lookup. -/
theorem c10_amended_guards_vacuous (env : ExecEnv) :
    Effect.statusQuery ∉ (get_log env).2 ∧
    Effect.statusQuery ∉ (get_output env).2 ∧
    Effect.statusQuery ∉ (get_usage_report env).2 ∧
    Effect.podList ∈ (get_log env).2 ∧
    (get_output env).2 = [] ∧
    (get_usage_report env).2 = [] := by
  have hout : containerNamesAttr "SIDECAR_OUTPUT" =
      Except.error "AttributeError: ContainerNames has no attribute SIDECAR_OUTPUT" := rfl
  have husage : containerNamesAttr "SIDECAR_USAGE" =
      Except.error "AttributeError: ContainerNames has no attribute SIDECAR_USAGE" := rfl
  have hcal : containerNamesAttr "CALRISSIAN" = Except.ok ContainerNames.CALRISSIAN := rfl
  rcases env with ⟨st, pods, logf, jok⟩
  cases pods <;>
    simp [get_log, get_output, get_usage_report, get_container_log,
      boundMethodTruthy, hout, husage, hcal]

end Pycalrissian
